import Mathlib

/-!
Shallow embedding of `src/server.py` (hackathon-search-mcp): a FastAPI
relay around a DuckDuckGo search provider.  Python strings are modelled as
Lean `String`s (sequences of code points), so Python slicing `s[:n]`,
lowering `s.lower()` and substring tests `a in b` are modelled on the
character list `String.data`.  The external provider (`DDGS`) and the
web framework are opaque collaborators: the provider's outcome (a raw
result list, or a raised exception carrying a message) is passed in as a
parameter, and a raised `HTTPException` is modelled as `Except.error`
carrying its `detail` string.
-/

set_option maxRecDepth 8000

/-- Python `s[:n]` on a `str`: the first `n` code points. -/
def pySlice (s : String) (n : Nat) : String := String.mk (s.data.take n)

/-- Python `s.lower()` (character-wise, as used on the ASCII keywords here). -/
def pyLower (s : String) : String := String.mk (s.data.map Char.toLower)

/-- Does `l` start with `p`? (helper for the substring test). -/
def charsStartWith : List Char → List Char → Bool
  | [], _ => true
  | _ :: _, [] => false
  | a :: asx, b :: bs => a == b && charsStartWith asx bs

/-- Is `needle` a contiguous subsequence of the second list? -/
def charsContain (needle : List Char) : List Char → Bool
  | [] => charsStartWith needle []
  | b :: bs => charsStartWith needle (b :: bs) || charsContain needle bs

/-- Python `sub in hay` on `str`: substring containment. -/
def strContains (hay sub : String) : Bool := charsContain sub.data hay.data

/-- A single apostrophe, used inside the user-facing messages. -/
def apos : String := String.singleton '\''

/-- A raw provider result: an opaque dict; `.get(key, default)` becomes
`Option.getD`.  Web results use `href`, news results use `url`. -/
structure RawResult where
  title : Option String
  href : Option String
  url : Option String
  body : Option String
  source : Option String
  date : Option String

/-- One formatted result dict as built by the three endpoints.  Keys that a
mode does not set are `none` (`source`/`date` only for news,
`contentType`/`focus` only for academic). -/
structure FormattedResult where
  rank : Nat
  title : String
  url : String
  description : String
  source : Option String
  date : Option String
  contentType : Option String
  focus : Option String
  type : String

/-- `SearchRequest` pydantic model (`max_results` defaulting handled at parse). -/
structure SearchRequest where
  query : String
  maxResults : Nat

/-- `NewsRequest` pydantic model. -/
structure NewsRequest where
  query : String
  maxResults : Nat

/-- `AcademicRequest` pydantic model. -/
structure AcademicRequest where
  query : String
  focus : String
  maxResults : Nat

/-- `SearchResponse` pydantic model. -/
structure SearchResponse where
  results : List FormattedResult
  total : Nat
  query : String

/-- Outcome of the opaque provider call `list(ddgs.text/news(...))`:
either a raw result list or a raised exception with message `msg`. -/
inductive ProviderOutcome where
  | ok (results : List RawResult)
  | error (msg : String)

/-- Python `enumerate(l, i)`. -/
def enumFrom {α : Type} (i : Nat) : List α → List (Nat × α)
  | [] => []
  | x :: xs => (i, x) :: enumFrom (i + 1) xs

/-- One formatted dict of `web_search` (server.py lines 79-85). -/
def formatWebResult (i : Nat) (r : RawResult) : FormattedResult :=
  { rank := i
    title := pySlice (r.title.getD "No Title") 150
    url := r.href.getD "No URL"
    description := pySlice (r.body.getD "No description") 400
    source := none
    date := none
    contentType := none
    focus := none
    type := "web" }

/-- `web_search` (server.py lines 60-95), with the provider outcome passed
in; a raised `HTTPException(500, detail)` is `Except.error detail`. -/
def webSearch (req : SearchRequest) (provider : ProviderOutcome) :
    Except String SearchResponse :=
  match provider with
  | ProviderOutcome.error e => Except.error ("Search error: " ++ e)
  | ProviderOutcome.ok results =>
    if results.isEmpty then
      Except.ok ⟨[], 0, req.query⟩
    else
      Except.ok ⟨(enumFrom 1 results).map (fun p => formatWebResult p.1 p.2),
        ((enumFrom 1 results).map (fun p => formatWebResult p.1 p.2)).length,
        req.query⟩

/-- One formatted dict of `news_search` (server.py lines 116-124). -/
def formatNewsResult (i : Nat) (r : RawResult) : FormattedResult :=
  { rank := i
    title := pySlice (r.title.getD "No Title") 150
    url := r.url.getD "No URL"
    description := pySlice (r.body.getD "No summary") 400
    source := some (r.source.getD "Unknown Source")
    date := some (r.date.getD "No Date")
    contentType := none
    focus := none
    type := "news" }

/-- `news_search` (server.py lines 97-134). -/
def newsSearch (req : NewsRequest) (provider : ProviderOutcome) :
    Except String SearchResponse :=
  match provider with
  | ProviderOutcome.error e => Except.error ("News search error: " ++ e)
  | ProviderOutcome.ok results =>
    if results.isEmpty then
      Except.ok ⟨[], 0, req.query⟩
    else
      Except.ok ⟨(enumFrom 1 results).map (fun p => formatNewsResult p.1 p.2),
        ((enumFrom 1 results).map (fun p => formatNewsResult p.1 p.2)).length,
        req.query⟩

/-- Query augmentation of `academic_search` (server.py lines 142-151). -/
def academicQuery (query focus : String) : String :=
  if focus = "papers" then
    query ++ " site:arxiv.org OR site:scholar.google.com OR filetype:pdf"
  else if focus = "courses" then
    query ++ " site:edu course OR curriculum OR syllabus"
  else if focus = "tutorials" then
    query ++ " tutorial OR guide OR how-to site:edu"
  else
    query ++ " site:edu OR site:arxiv.org"

/-- Content-type detection of `academic_search` (server.py lines 169-176).
`body` is `result.get('body', '')` there (empty-string default). -/
def detectContentType (url title body : String) : String :=
  if strContains url "arxiv.org" then "paper"
  else if strContains (pyLower title) "course" || strContains (pyLower body) "syllabus" then
    "course"
  else if strContains (pyLower title) "tutorial" || strContains (pyLower title) "guide" then
    "tutorial"
  else "resource"

/-- One formatted dict of `academic_search` (server.py lines 166-186). -/
def formatAcademicResult (focus : String) (i : Nat) (r : RawResult) : FormattedResult :=
  { rank := i
    title := pySlice (r.title.getD "No Title") 150
    url := r.href.getD "No URL"
    description := pySlice (r.body.getD "No description") 400
    source := none
    date := none
    contentType := some (detectContentType (r.href.getD "No URL")
      (r.title.getD "No Title") (r.body.getD ""))
    focus := some focus
    type := "academic" }

/-- `academic_search` (server.py lines 136-196).  The provider is called on
the augmented query; its outcome for that query is the parameter. -/
def academicSearch (req : AcademicRequest) (provider : ProviderOutcome) :
    Except String SearchResponse :=
  match provider with
  | ProviderOutcome.error e => Except.error ("Academic search error: " ++ e)
  | ProviderOutcome.ok results =>
    if results.isEmpty then
      Except.ok ⟨[], 0, req.query⟩
    else
      Except.ok ⟨(enumFrom 1 results).map (fun p => formatAcademicResult req.focus p.1 p.2),
        ((enumFrom 1 results).map (fun p => formatAcademicResult req.focus p.1 p.2)).length,
        req.query⟩

/-- Python `str.title()` on the content-type tags (uppercase the first
letter of each alphabetic run, lowercase the rest). -/
def pyTitleAux : Bool → List Char → List Char
  | _, [] => []
  | prevCased, c :: cs =>
    if c.isAlpha then
      (if prevCased then c.toLower else c.toUpper) :: pyTitleAux true cs
    else
      c :: pyTitleAux false cs

/-- Python `s.title()`. -/
def pyTitleCase (s : String) : String := String.mk (pyTitleAux false s.data)

/-- Header line of `format_search_results` (server.py line 330). -/
def searchHeader (resp : SearchResponse) : String :=
  "**Search Results for: " ++ resp.query ++ "** (" ++ toString resp.total ++ " results)\n"

/-- One appended block of `format_search_results` (server.py lines 333-337). -/
def searchResultBlock (r : FormattedResult) : String :=
  "\n**" ++ toString r.rank ++ ". " ++ r.title ++ "**\n🔗 " ++ r.url ++
    "\n📝 " ++ r.description ++ "\n"

/-- The `formatted` list built by `format_search_results` before joining:
the header plus one block per result, capped at the first 10. -/
def formatSearchResultsList (resp : SearchResponse) : List String :=
  searchHeader resp :: (resp.results.take 10).map searchResultBlock

/-- `format_search_results` (server.py lines 325-339). -/
def formatSearchResults (resp : SearchResponse) : String :=
  if resp.results.isEmpty then
    "No results found for " ++ apos ++ resp.query ++ apos ++ ". Try different keywords."
  else
    String.intercalate "\n" (formatSearchResultsList resp)

/-- Header line of `format_news_results` (server.py line 346). -/
def newsHeader (resp : SearchResponse) : String :=
  "**Recent News: " ++ resp.query ++ "** (" ++ toString resp.total ++ " articles)\n"

/-- One appended block of `format_news_results` (server.py lines 349-354). -/
def newsResultBlock (r : FormattedResult) : String :=
  "\n**" ++ toString r.rank ++ ". " ++ r.title ++ "**\n📰 " ++ r.source.getD "Unknown" ++
    " | 📅 " ++ r.date.getD "No date" ++ "\n🔗 " ++ r.url ++ "\n📄 " ++ r.description ++ "\n"

/-- The `formatted` list built by `format_news_results`: header plus one
block per result, uncapped. -/
def formatNewsResultsList (resp : SearchResponse) : List String :=
  newsHeader resp :: resp.results.map newsResultBlock

/-- `format_news_results` (server.py lines 341-356). -/
def formatNewsResults (resp : SearchResponse) : String :=
  if resp.results.isEmpty then
    "No recent news found for " ++ apos ++ resp.query ++ apos ++ ". Try different keywords."
  else
    String.intercalate "\n" (formatNewsResultsList resp)

/-- Icon lookup of `format_academic_results` (server.py lines 367-372):
a dict `.get` with default icon. -/
def contentTypeIcon (ct : String) : String :=
  if ct = "paper" then "📊"
  else if ct = "course" then "📚"
  else if ct = "tutorial" then "🎯"
  else if ct = "resource" then "📄"
  else "📄"

/-- Focus shown in the academic header (server.py line 363). -/
def academicHeaderFocus (resp : SearchResponse) : String :=
  match resp.results with
  | [] => "general"
  | r :: _ => r.focus.getD "general"

/-- Header line of `format_academic_results` (server.py line 364). -/
def academicHeader (resp : SearchResponse) : String :=
  "**Academic Search: " ++ resp.query ++ "** (Focus: " ++ academicHeaderFocus resp ++
    ", " ++ toString resp.total ++ " results)\n"

/-- One appended block of `format_academic_results` (server.py lines 374-378). -/
def academicResultBlock (r : FormattedResult) : String :=
  "\n**" ++ toString r.rank ++ ". " ++ r.title ++ "**\n" ++
    contentTypeIcon (r.contentType.getD "resource") ++ " " ++
    pyTitleCase (r.contentType.getD "Resource") ++ " | 🔗 " ++ r.url ++
    "\n📝 " ++ r.description ++ "\n"

/-- The `formatted` list built by `format_academic_results`: header plus
one block per result, uncapped. -/
def formatAcademicResultsList (resp : SearchResponse) : List String :=
  academicHeader resp :: resp.results.map academicResultBlock

/-- `format_academic_results` (server.py lines 358-380). -/
def formatAcademicResults (resp : SearchResponse) : String :=
  if resp.results.isEmpty then
    "No academic results found for " ++ apos ++ resp.query ++ apos ++ ". Try broader terms."
  else
    String.intercalate "\n" (formatAcademicResultsList resp)

/-- `arguments` dict of a tool call, restricted to the keys the three
pydantic request models read; a missing key is `none`. -/
structure ToolArguments where
  query : Option String
  focus : Option String
  maxResults : Option Nat

/-- Return value of `mcp_call_tool`: the three dict shapes it builds. -/
inductive ToolCallResult where
  | content (items : List (String × String))
  | unknown (error : String) (availableTools : List String)
  | failed (error : String)

/-- Python `f-string` of an optional tool name (`None` prints as "None"). -/
def optNameStr : Option String → String
  | none => "None"
  | some s => s

/-- `mcp_call_tool` (server.py lines 275-323).  `excStr` models Python
`str(e)` on the `HTTPException` a search endpoint raised, as a function of
its `detail`; `valMsg` models `str(e)` of the pydantic validation error
raised when `query` is absent.  `content` items are the `(type, text)`
pairs of the returned content list. -/
def mcpCallTool (excStr : String → String) (valMsg : String)
    (provider : ProviderOutcome) (name : Option String) (args : ToolArguments) :
    ToolCallResult :=
  if name = some "web_search" then
    match args.query with
    | none => ToolCallResult.failed ("Tool execution failed: " ++ valMsg)
    | some q =>
      match webSearch ⟨q, args.maxResults.getD 10⟩ provider with
      | Except.error detail =>
        ToolCallResult.failed ("Tool execution failed: " ++ excStr detail)
      | Except.ok resp => ToolCallResult.content [("text", formatSearchResults resp)]
  else if name = some "news_search" then
    match args.query with
    | none => ToolCallResult.failed ("Tool execution failed: " ++ valMsg)
    | some q =>
      match newsSearch ⟨q, args.maxResults.getD 8⟩ provider with
      | Except.error detail =>
        ToolCallResult.failed ("Tool execution failed: " ++ excStr detail)
      | Except.ok resp => ToolCallResult.content [("text", formatNewsResults resp)]
  else if name = some "academic_search" then
    match args.query with
    | none => ToolCallResult.failed ("Tool execution failed: " ++ valMsg)
    | some q =>
      match academicSearch ⟨q, args.focus.getD "general", args.maxResults.getD 10⟩ provider with
      | Except.error detail =>
        ToolCallResult.failed ("Tool execution failed: " ++ excStr detail)
      | Except.ok resp => ToolCallResult.content [("text", formatAcademicResults resp)]
  else
    ToolCallResult.unknown ("Unknown tool: " ++ optNameStr name)
      ["web_search", "news_search", "academic_search"]

/-- The filter suffix appended for `focus="papers"`. -/
def papersFilter : String := " site:arxiv.org OR site:scholar.google.com OR filetype:pdf"

/-- The 500-character error message used to refute the truncation claim. -/
def e500 : String := String.mk (List.replicate 500 'e')

/-- A concrete empty response used as witness input. -/
def respEmpty : SearchResponse := ⟨[], 0, "qq"⟩

/-- A raw result with a 500-character title, as witness input. -/
def rawLong : RawResult :=
  ⟨some (String.mk (List.replicate 500 'a')), none, none, none, none, none⟩

/-- A one-result response used as witness input. -/
def respOne : SearchResponse := ⟨[⟨1, "t", "u", "d", none, none, none, none, "web"⟩], 1, "qq"⟩

/-- A raw result with a 400-character body, for the C5 counterexample. -/
def rawC5 : RawResult :=
  ⟨some "T", some "u", none, some (String.mk (List.replicate 400 'd')), none, none⟩

/-- The web response for ten such provider results. -/
def respC5 : SearchResponse :=
  match webSearch ⟨"qq", 10⟩ (ProviderOutcome.ok (List.replicate 10 rawC5)) with
  | Except.ok r => r
  | Except.error _ => ⟨[], 0, ""⟩

/-- The response a successful web search produces (error case unreachable
for an `ok` provider outcome; a dummy is returned there). -/
def respOf (req : SearchRequest) (rs : List RawResult) : SearchResponse :=
  match webSearch req (ProviderOutcome.ok rs) with
  | Except.ok r => r
  | Except.error _ => ⟨[], 0, ""⟩

theorem enumFrom_length {α : Type} (i : Nat) (l : List α) :
    (enumFrom i l).length = l.length := by
  induction l generalizing i with
  | nil => rfl
  | cons a l ih => simp [enumFrom, ih]

theorem enumFrom_map_rank {α β : Type} (f : Nat → α → β) (g : β → Nat)
    (hf : ∀ n a, g (f n a) = n) (i : Nat) (l : List α) :
    ((enumFrom i l).map (fun p => f p.1 p.2)).map g = List.range' i l.length := by
  induction l generalizing i with
  | nil => rfl
  | cons a l ih => simp [enumFrom, hf, ih, List.range'_succ]

theorem enumFrom_map_proj {α β γ : Type} (f : Nat → α → β) (g : β → γ) (g2 : α → γ)
    (hf : ∀ n a, g (f n a) = g2 a) (i : Nat) (l : List α) :
    ((enumFrom i l).map (fun p => f p.1 p.2)).map g = l.map g2 := by
  induction l generalizing i with
  | nil => rfl
  | cons a l ih => simp [enumFrom, hf, ih]

/-- C1: for every raw result list of length N returned by the provider,
each of the three search operations returns exactly N formatted entries
whose ranks are the dense 1-based sequence 1..N, in the same order as the
input list (the url of entry k comes from input k). -/
theorem ranked_output_dense (wreq : SearchRequest) (nreq : NewsRequest)
    (areq : AcademicRequest) (rs : List RawResult) :
    (webSearch wreq (ProviderOutcome.ok rs)).map
        (fun resp => (resp.results.length, resp.results.map FormattedResult.rank,
          resp.results.map FormattedResult.url)) =
      Except.ok (rs.length, List.range' 1 rs.length,
        rs.map (fun r => r.href.getD "No URL")) ∧
    (newsSearch nreq (ProviderOutcome.ok rs)).map
        (fun resp => (resp.results.length, resp.results.map FormattedResult.rank,
          resp.results.map FormattedResult.url)) =
      Except.ok (rs.length, List.range' 1 rs.length,
        rs.map (fun r => r.url.getD "No URL")) ∧
    (academicSearch areq (ProviderOutcome.ok rs)).map
        (fun resp => (resp.results.length, resp.results.map FormattedResult.rank,
          resp.results.map FormattedResult.url)) =
      Except.ok (rs.length, List.range' 1 rs.length,
        rs.map (fun r => r.href.getD "No URL")) := by
  refine ⟨?_, ?_, ?_⟩
  · cases rs with
    | nil => rfl
    | cons a l =>
      simp only [webSearch, List.isEmpty_cons, Bool.false_eq_true, if_false, Except.map,
        Except.ok.injEq, Prod.mk.injEq]
      refine ⟨?_, ?_, ?_⟩
      · rw [List.length_map, enumFrom_length]
      · exact enumFrom_map_rank formatWebResult FormattedResult.rank (fun n r => rfl) 1 (a :: l)
      · exact enumFrom_map_proj formatWebResult FormattedResult.url
          (fun r => r.href.getD "No URL") (fun n r => rfl) 1 (a :: l)
  · cases rs with
    | nil => rfl
    | cons a l =>
      simp only [newsSearch, List.isEmpty_cons, Bool.false_eq_true, if_false, Except.map,
        Except.ok.injEq, Prod.mk.injEq]
      refine ⟨?_, ?_, ?_⟩
      · rw [List.length_map, enumFrom_length]
      · exact enumFrom_map_rank formatNewsResult FormattedResult.rank (fun n r => rfl) 1 (a :: l)
      · exact enumFrom_map_proj formatNewsResult FormattedResult.url
          (fun r => r.url.getD "No URL") (fun n r => rfl) 1 (a :: l)
  · cases rs with
    | nil => rfl
    | cons a l =>
      simp only [academicSearch, List.isEmpty_cons, Bool.false_eq_true, if_false, Except.map,
        Except.ok.injEq, Prod.mk.injEq]
      refine ⟨?_, ?_, ?_⟩
      · rw [List.length_map, enumFrom_length]
      · exact enumFrom_map_rank (formatAcademicResult areq.focus) FormattedResult.rank
          (fun n r => rfl) 1 (a :: l)
      · exact enumFrom_map_proj (formatAcademicResult areq.focus) FormattedResult.url
          (fun r => r.href.getD "No URL") (fun n r => rfl) 1 (a :: l)

/-- C3: for focus="papers" the query forwarded to the provider is exactly
the original query followed by the arXiv/Scholar/PDF filter suffix: the
suffix is appended exactly once and the original query text is the prefix. -/
theorem papers_query_augmented (q : String) :
    academicQuery q "papers" = q ++ papersFilter ∧
    (academicQuery q "papers").data = q.data ++ papersFilter.data ∧
    (academicQuery q "papers").length = q.length + papersFilter.length := by
  refine ⟨rfl, ?_, ?_⟩ <;> simp [academicQuery, papersFilter]

theorem string_data_length (s : String) : s.data.length = s.length := by
  cases s
  rfl

theorem pySlice_length (s : String) (n : Nat) : (pySlice s n).length = min n s.length := by
  cases s
  simp [pySlice, List.length_take]

theorem pySlice_of_le (s : String) (n : Nat) (h : s.length ≤ n) : pySlice s n = s := by
  cases s
  exact congrArg String.mk (List.take_of_length_le h)

/-- C2: content-type classification of academic results applies its rules
in the fixed order url-arxiv, then course/syllabus, then tutorial/guide,
else resource; the first matching rule wins, so an arXiv url is classified
"paper" whatever the title says; and the academic formatter stores exactly
this classification. -/
theorem content_type_rule_order (url title body : String) :
    (strContains url "arxiv.org" = true → detectContentType url title body = "paper") ∧
    (strContains url "arxiv.org" = false →
      (strContains (pyLower title) "course" || strContains (pyLower body) "syllabus") = true →
      detectContentType url title body = "course") ∧
    (strContains url "arxiv.org" = false →
      strContains (pyLower title) "course" = false →
      strContains (pyLower body) "syllabus" = false →
      (strContains (pyLower title) "tutorial" || strContains (pyLower title) "guide") = true →
      detectContentType url title body = "tutorial") ∧
    (strContains url "arxiv.org" = false →
      strContains (pyLower title) "course" = false →
      strContains (pyLower body) "syllabus" = false →
      strContains (pyLower title) "tutorial" = false →
      strContains (pyLower title) "guide" = false →
      detectContentType url title body = "resource") ∧
    (∀ (focus : String) (i : Nat) (r : RawResult),
      (formatAcademicResult focus i r).contentType =
        some (detectContentType (r.href.getD "No URL") (r.title.getD "No Title")
          (r.body.getD ""))) := by
  refine ⟨?_, ?_, ?_, ?_, fun focus i r => rfl⟩ <;>
    intros <;> simp_all [detectContentType]

theorem content_type_rule_order_witness :
    strContains "https://arxiv.org/abs/2101.00001" "arxiv.org" = true ∧
    detectContentType "https://arxiv.org/abs/2101.00001" "A Tutorial for Beginners" "x" =
      "paper" :=
  ⟨by decide,
    (content_type_rule_order "https://arxiv.org/abs/2101.00001" "A Tutorial for Beginners"
      "x").1 (by decide)⟩

/-- C4 counterexample: a provider exception whose text has 500 characters
is embedded whole in the user-facing message (length 14 + 500 = 514), so
the embedded error text is NOT truncated to its first ~100 characters. -/
theorem error_truncation_counterexample :
    webSearch ⟨"q", 10⟩ (ProviderOutcome.error e500) =
      Except.error ("Search error: " ++ e500) ∧
    e500.length = 500 ∧
    ("Search error: " ++ e500).data = "Search error: ".data ++ e500.data ∧
    ¬ ("Search error: " ++ e500).length ≤ 114 := by
  have h14 : ("Search error: " : String).length = 14 := rfl
  have h500 : e500.length = 500 := rfl
  refine ⟨rfl, h500, rfl, ?_⟩
  simp [String.length_append, h14, h500]

/-- C4 (amended): every provider exception is caught at the operation
boundary and surfaced as an error value (an HTTP 500 detail, or the
failed-tool object of the dispatcher), never propagated raw; but the
embedded error text is the full exception text, untruncated. -/
theorem errors_caught_untruncated (wreq : SearchRequest) (nreq : NewsRequest)
    (areq : AcademicRequest) (e q valMsg : String) (excStr : String → String) :
    webSearch wreq (ProviderOutcome.error e) = Except.error ("Search error: " ++ e) ∧
    newsSearch nreq (ProviderOutcome.error e) = Except.error ("News search error: " ++ e) ∧
    academicSearch areq (ProviderOutcome.error e) =
      Except.error ("Academic search error: " ++ e) ∧
    ("Search error: " ++ e).data = "Search error: ".data ++ e.data ∧
    ("Search error: " ++ e).length = 14 + e.length ∧
    mcpCallTool excStr valMsg (ProviderOutcome.error e) (some "web_search")
        ⟨some q, none, none⟩ =
      ToolCallResult.failed ("Tool execution failed: " ++ excStr ("Search error: " ++ e)) := by
  have h14 : ("Search error: " : String).length = 14 := rfl
  refine ⟨rfl, rfl, rfl, rfl, ?_, rfl⟩
  simp [String.length_append, h14]

/-- C6: an empty provider result list is not an error: each endpoint
returns a normal empty response, and each text renderer produces the fixed
no-results message naming the query. -/
theorem empty_results_message (wreq : SearchRequest) (nreq : NewsRequest)
    (areq : AcademicRequest) (resp : SearchResponse) (h : resp.results = []) :
    webSearch wreq (ProviderOutcome.ok []) = Except.ok ⟨[], 0, wreq.query⟩ ∧
    newsSearch nreq (ProviderOutcome.ok []) = Except.ok ⟨[], 0, nreq.query⟩ ∧
    academicSearch areq (ProviderOutcome.ok []) = Except.ok ⟨[], 0, areq.query⟩ ∧
    formatSearchResults resp =
      "No results found for " ++ apos ++ resp.query ++ apos ++ ". Try different keywords." ∧
    formatNewsResults resp =
      "No recent news found for " ++ apos ++ resp.query ++ apos ++ ". Try different keywords." ∧
    formatAcademicResults resp =
      "No academic results found for " ++ apos ++ resp.query ++ apos ++ ". Try broader terms." := by
  refine ⟨rfl, rfl, rfl, ?_, ?_, ?_⟩ <;>
    simp [formatSearchResults, formatNewsResults, formatAcademicResults, h]

theorem empty_results_message_witness :
    respEmpty.results = [] ∧
    formatSearchResults respEmpty =
      "No results found for " ++ apos ++ "qq" ++ apos ++ ". Try different keywords." :=
  ⟨rfl,
    (empty_results_message ⟨"qq", 10⟩ ⟨"qq", 8⟩ ⟨"qq", "general", 10⟩ respEmpty
      rfl).2.2.2.1⟩

/-- C7: the dispatcher maps any unrecognized tool name, whatever the
arguments and provider behaviour, to the fixed unknown-tool object listing
exactly the three valid names; it returns normally (no exception path). -/
theorem unknown_tool_fixed_message (name : String)
    (h1 : name ≠ "web_search") (h2 : name ≠ "news_search") (h3 : name ≠ "academic_search")
    (excStr : String → String) (valMsg : String) (provider : ProviderOutcome)
    (args : ToolArguments) :
    mcpCallTool excStr valMsg provider (some name) args =
      ToolCallResult.unknown ("Unknown tool: " ++ name)
        ["web_search", "news_search", "academic_search"] := by
  simp [mcpCallTool, optNameStr, h1, h2, h3]

theorem unknown_tool_fixed_message_witness :
    mcpCallTool (fun s => s) "v" (ProviderOutcome.ok []) (some "bogus_tool")
        ⟨none, none, none⟩ =
      ToolCallResult.unknown ("Unknown tool: " ++ "bogus_tool")
        ["web_search", "news_search", "academic_search"] :=
  unknown_tool_fixed_message "bogus_tool" (by decide) (by decide) (by decide)
    (fun s => s) "v" (ProviderOutcome.ok []) ⟨none, none, none⟩

/-- C8: formatted titles are the first 150 characters of the raw title and
descriptions the first 400 characters of the raw body, in every mode: the
formatted length is min of limit and raw length (so never exceeds the
limit), a 500-character title comes out at exactly 150, and a title within
the limit is unchanged. -/
theorem truncation_bounds (r : RawResult) (i : Nat) (focus : String) :
    (formatWebResult i r).title.length = min 150 (r.title.getD "No Title").length ∧
    (formatWebResult i r).title.length ≤ 150 ∧
    (formatWebResult i r).description.length =
      min 400 (r.body.getD "No description").length ∧
    (formatWebResult i r).description.length ≤ 400 ∧
    ((r.title.getD "No Title").length = 500 → (formatWebResult i r).title.length = 150) ∧
    ((r.title.getD "No Title").length ≤ 150 →
      (formatWebResult i r).title = r.title.getD "No Title") ∧
    (formatNewsResult i r).title.length = min 150 (r.title.getD "No Title").length ∧
    (formatNewsResult i r).description.length = min 400 (r.body.getD "No summary").length ∧
    (formatAcademicResult focus i r).title.length =
      min 150 (r.title.getD "No Title").length ∧
    (formatAcademicResult focus i r).description.length =
      min 400 (r.body.getD "No description").length := by
  refine ⟨pySlice_length _ _, ?_, pySlice_length _ _, ?_, ?_, ?_,
    pySlice_length _ _, pySlice_length _ _, pySlice_length _ _, pySlice_length _ _⟩
  · have h := pySlice_length (r.title.getD "No Title") 150
    show (pySlice (r.title.getD "No Title") 150).length ≤ 150
    omega
  · have h := pySlice_length (r.body.getD "No description") 400
    show (pySlice (r.body.getD "No description") 400).length ≤ 400
    omega
  · intro h
    have h2 := pySlice_length (r.title.getD "No Title") 150
    show (pySlice (r.title.getD "No Title") 150).length = 150
    omega
  · intro h
    exact pySlice_of_le _ _ h

theorem truncation_bounds_witness :
    (rawLong.title.getD "No Title").length = 500 ∧
    (formatWebResult 1 rawLong).title.length = 150 :=
  ⟨rfl, (truncation_bounds rawLong 1 "general").2.2.2.2.1 rfl⟩

theorem academicQuery_longer (q f : String) : q.length < (academicQuery q f).length := by
  unfold academicQuery
  split_ifs
  · have h : 0 < (" site:arxiv.org OR site:scholar.google.com OR filetype:pdf" : String).length :=
      by decide
    simp only [String.length_append]
    omega
  · have h : 0 < (" site:edu course OR curriculum OR syllabus" : String).length := by decide
    simp only [String.length_append]
    omega
  · have h : 0 < (" tutorial OR guide OR how-to site:edu" : String).length := by decide
    simp only [String.length_append]
    omega
  · have h : 0 < (" site:edu OR site:arxiv.org" : String).length := by decide
    simp only [String.length_append]
    omega

/-- C10: the query field of an academic response is the caller's original
query, never the augmented query forwarded to the provider (for every
focus the augmented query is strictly longer, hence different). -/
theorem response_query_unaugmented (req : AcademicRequest) (rs : List RawResult) :
    (academicSearch req (ProviderOutcome.ok rs)).map SearchResponse.query =
      Except.ok req.query ∧
    req.query ≠ academicQuery req.query req.focus := by
  constructor
  · cases rs with
    | nil => rfl
    | cons a l => simp [academicSearch, Except.map]
  · intro hEq
    have h := academicQuery_longer req.query req.focus
    rw [← hEq] at h
    omega

theorem intercalate_go_length (s : String) (l : List String) (acc : String) :
    (String.intercalate.go acc s l).length =
      acc.length + (l.map (fun x => s.length + x.length)).sum := by
  induction l generalizing acc with
  | nil => simp [String.intercalate.go]
  | cons a asx ih =>
    simp only [String.intercalate.go, ih, String.length_append, List.map_cons, List.sum_cons]
    omega

theorem intercalate_length (s a : String) (asx : List String) :
    (String.intercalate s (a :: asx)).length =
      a.length + (asx.map (fun x => s.length + x.length)).sum := by
  simp [String.intercalate, intercalate_go_length]

theorem sum_map_len_add (s : String) (l : List String) :
    (l.map (fun x => s.length + x.length)).sum =
      s.length * l.length + (l.map String.length).sum := by
  induction l with
  | nil => simp
  | cons a asx ih =>
    simp only [List.map_cons, List.sum_cons, ih, List.length_cons]
    ring

theorem intercalate_newline_length (a : String) (l : List String) :
    (String.intercalate "\n" (a :: l)).length =
      a.length + l.length + (l.map String.length).sum := by
  rw [intercalate_length, sum_map_len_add]
  have h1 : ("\n" : String).length = 1 := rfl
  rw [h1]
  omega

/-- C5 (amended): for every non-empty formatted result list the rendered
text is exactly the newline-join of a header line and one block per result
(title, link and description; the web renderer keeps only the first 10
blocks), and its length is the full sum of the part lengths plus one
separator per block — no truncation to a 4000-character budget (or any
other) is applied, so the rendered text can exceed 4000 characters. -/
theorem rendered_text_untruncated (resp : SearchResponse) (h : resp.results ≠ []) :
    formatSearchResults resp = String.intercalate "\n" (formatSearchResultsList resp) ∧
    formatNewsResults resp = String.intercalate "\n" (formatNewsResultsList resp) ∧
    formatAcademicResults resp = String.intercalate "\n" (formatAcademicResultsList resp) ∧
    (formatSearchResults resp).length =
      (searchHeader resp).length + ((resp.results.take 10).map searchResultBlock).length +
        (((resp.results.take 10).map searchResultBlock).map String.length).sum ∧
    (formatNewsResults resp).length =
      (newsHeader resp).length + (resp.results.map newsResultBlock).length +
        ((resp.results.map newsResultBlock).map String.length).sum := by
  have hne : resp.results.isEmpty = false := by
    cases hr : resp.results with
    | nil => exact absurd hr h
    | cons a l => rfl
  have h1 : formatSearchResults resp =
      String.intercalate "\n" (searchHeader resp ::
        (resp.results.take 10).map searchResultBlock) := by
    simp [formatSearchResults, formatSearchResultsList, hne]
  have h2 : formatNewsResults resp =
      String.intercalate "\n" (newsHeader resp :: resp.results.map newsResultBlock) := by
    simp [formatNewsResults, formatNewsResultsList, hne]
  refine ⟨h1, h2, ?_, ?_, ?_⟩
  · simp [formatAcademicResults, hne]
  · rw [h1, intercalate_newline_length]
  · rw [h2, intercalate_newline_length]

theorem rendered_text_untruncated_witness :
    respOne.results ≠ [] ∧
    formatSearchResults respOne = String.intercalate "\n" (formatSearchResultsList respOne) :=
  ⟨by simp [respOne], (rendered_text_untruncated respOne (by simp [respOne])).1⟩

/-- C5 counterexample: a reachable web response (ten results with
400-character descriptions) whose rendered text has 4221 > 4000
characters — so the rendered text is not truncated to a 4000-character
budget. -/
theorem rendered_budget_counterexample : 4000 < (formatSearchResults respC5).length := by
  have hne : respC5.results.isEmpty = false := rfl
  have hform : formatSearchResults respC5 =
      String.intercalate "\n" (searchHeader respC5 ::
        (respC5.results.take 10).map searchResultBlock) := by
    simp [formatSearchResults, formatSearchResultsList, hne]
  rw [hform, intercalate_newline_length]
  have hheader : (searchHeader respC5).length = 40 := rfl
  have hcount : ((respC5.results.take 10).map searchResultBlock).length = 10 := rfl
  have hsum : (((respC5.results.take 10).map searchResultBlock).map String.length).sum =
      4171 := rfl
  rw [hheader, hcount, hsum]
  omega

theorem respOf_cons (req : SearchRequest) (a : RawResult) (l : List RawResult) :
    respOf req (a :: l) =
      ⟨(enumFrom 1 (a :: l)).map (fun p => formatWebResult p.1 p.2),
        ((enumFrom 1 (a :: l)).map (fun p => formatWebResult p.1 p.2)).length,
        req.query⟩ := rfl

/-- C9: when a web search yields more than 10 results, the text renderer
keeps blocks only for the first 10 while its header still reports the full
total; the news and academic renderers keep one block per result with no
cap. -/
theorem web_render_caps_at_ten (req : SearchRequest) (rs : List RawResult)
    (h : 10 < rs.length) :
    webSearch req (ProviderOutcome.ok rs) = Except.ok (respOf req rs) ∧
    (respOf req rs).total = rs.length ∧
    searchHeader (respOf req rs) =
      "**Search Results for: " ++ req.query ++ "** (" ++ toString rs.length ++
        " results)\n" ∧
    formatSearchResultsList (respOf req rs) =
      searchHeader (respOf req rs) ::
        ((respOf req rs).results.take 10).map searchResultBlock ∧
    (formatSearchResultsList (respOf req rs)).length = 11 ∧
    (∀ resp : SearchResponse,
      (formatNewsResultsList resp).length = 1 + resp.results.length ∧
      (formatAcademicResultsList resp).length = 1 + resp.results.length) := by
  cases rs with
  | nil => exact absurd h (by simp)
  | cons a l =>
    refine ⟨rfl, ?_, ?_, rfl, ?_, ?_⟩
    · simp [respOf_cons, List.length_map, enumFrom_length]
    · simp [searchHeader, respOf_cons, List.length_map, enumFrom_length]
    · simp only [formatSearchResultsList, List.length_cons, List.length_map,
        List.length_take, respOf_cons, enumFrom_length]
      simp only [List.length_cons] at h
      omega
    · intro resp
      constructor <;> simp [formatNewsResultsList, formatAcademicResultsList] <;> omega

theorem web_render_caps_at_ten_witness :
    10 < (List.replicate 11 (⟨none, none, none, none, none, none⟩ : RawResult)).length ∧
    (formatSearchResultsList (respOf ⟨"qq", 20⟩
      (List.replicate 11 ⟨none, none, none, none, none, none⟩))).length = 11 :=
  ⟨by decide,
    (web_render_caps_at_ten ⟨"qq", 20⟩
      (List.replicate 11 ⟨none, none, none, none, none, none⟩) (by decide)).2.2.2.2.1⟩
